import Mathlib

/-!
# Upscale frontend: session, upload and history controllers

A shallow embedding of the state-carrying code of the React frontend

* `Frontend/src/App.jsx`            (checkAuth),
* `Frontend/src/Pages/Login.jsx`    (handleSubmit),
* `Frontend/src/Pages/Upload.jsx`   (handleImageChange, handleUpload, getDownloadURL),
* `Frontend/src/Pages/History.jsx`  (fetchHistory, handleDelete, the card footer),

followed by theorems about it.

Modelling conventions.

* Every `useState` cell is a field of a state record; a handler is a pure
  function from the state it runs on and the outcome of the outside world
  (the answer of `window.confirm`, the result of `fetch`) to the state after
  all of its setter calls, paired with the list of side effects it performed.
* A `fetch` either rejects (no response) or resolves with a status code and
  a body; the body is `none` when `response.json()` rejects.
* Values read out of a JSON body are `JsVal`s.  Property access on `null` or
  `undefined` and the string conversion of an object with an own `toString`
  property raise a TypeError, modelled as `none`, which is caught by the
  enclosing `try ... catch` exactly as in the source.
-/

namespace Upscale

/-! ## JavaScript values -/

/-- A JavaScript value as produced by `JSON.parse`, plus `undefined` (the
result of reading a missing property).  A number is represented by the text
that its conversion to a string gives ("0", "-5", "1.5", "1e+21"): that text
determines the number up to the sign of zero, so truthiness and string
conversion, the two things this program does with a number of a body, are
exact for every number. -/
inductive JsVal where
  | undefined
  | null
  | bool (b : Bool)
  | num (text : String)
  | str (s : String)
  | arr (elems : List JsVal)
  | obj (fields : List (String × JsVal))

namespace JsVal

/-- Truthiness, as used by `if (v)`, `v || w` and `v && w`. -/
def truthy : JsVal → Bool
  | undefined => false
  | null => false
  | bool b => b
  | num text => text != "0" && text != "NaN"
  | str s => s != ""
  | arr _ => true
  | obj _ => true

/-- The expression `v || w`. -/
def orElse (v w : JsVal) : JsVal :=
  if v.truthy then v else w

/-- Property read `v.key` for the keys this program reads (`status`,
`filename`, `message`, `username`, `authenticated`).  `none` is the TypeError
raised on `null` and `undefined`; primitives and arrays have none of these
keys, so the read yields `undefined`. -/
def getProp : JsVal → String → Option JsVal
  | undefined, _ => none
  | null, _ => none
  | obj fields, key => some ((fields.lookup key).getD undefined)
  | _, _ => some undefined

mutual
/-- String conversion performed by a template literal; `none` is the
TypeError it raises.  A parsed object converts through the inherited
`Object.prototype.toString` to "[object Object]", unless it has an own
property `toString`: that one, a JSON value, is not callable and the inherited
`valueOf` returns the object itself, so the conversion raises a TypeError.
An array converts to the comma join of its elements. -/
def toStr : JsVal → Option String
  | undefined => some "undefined"
  | null => some "null"
  | bool b => some (if b then "true" else "false")
  | num text => some text
  | str s => some s
  | arr xs => joinStr xs
  | obj fields =>
    if fields.any (fun kv => kv.1 == "toString") then none else some "[object Object]"
/-- The comma join of an array; `null` and `undefined` elements are empty. -/
def joinStr : List JsVal → Option String
  | [] => some ""
  | undefined :: rest => tailStr rest
  | null :: rest => tailStr rest
  | x :: rest =>
    match toStr x, tailStr rest with
    | some a, some b => some (a ++ b)
    | _, _ => none
/-- The join of the elements after the first one. -/
def tailStr : List JsVal → Option String
  | [] => some ""
  | undefined :: rest =>
    match tailStr rest with
    | some b => some ("," ++ b)
    | none => none
  | null :: rest =>
    match tailStr rest with
    | some b => some ("," ++ b)
    | none => none
  | x :: rest =>
    match toStr x, tailStr rest with
    | some a, some b => some ("," ++ a ++ b)
    | _, _ => none
end

end JsVal

/-! ## The network -/

/-- Outcome of `await fetch(...)` followed, where the code does so, by
`await response.json()`. -/
inductive FetchResult (β : Type) where
  /-- The promise returned by `fetch` rejects: no response was received. -/
  | networkError
  /-- A response with the given status; `body = none` when `response.json()`
  rejects (the body is not JSON). -/
  | response (status : Nat) (body : Option β)

/-- The getter `response.ok`: the status is in the range 200..299. -/
def responseOk (status : Nat) : Bool :=
  decide (200 ≤ status) && decide (status ≤ 299)

/-- Whether the request failed: no response at all (a transport error), or a
response whose status is outside 200..299. -/
def FetchResult.failed {β : Type} : FetchResult β → Bool
  | .networkError => true
  | .response status _ => !responseOk status

/-- Observable side effects of a handler, in the order they happen. -/
inductive Effect where
  /-- A call `fetch(url, ...)` with the given HTTP method. -/
  | fetch (method : String) (url : String)
  /-- A call `alert(msg)`. -/
  | alert (msg : String)
  /-- A call `console.error(...)`; `label` is its first argument when that is
  a string literal and empty otherwise. -/
  | consoleError (label : String)
  /-- The call `setTimeout(() => onClose(), 1000)`. -/
  | closeLater
  deriving DecidableEq

/-- The backend origin every request goes to. -/
def origin : String := "http://127.0.0.1:5000"

/-! ## History.jsx -/

/-- The `id` of a history item: a primitive JSON value (number or string),
compared with `!==`. -/
inductive ItemId where
  | num (n : Int)
  | str (s : String)
  deriving DecidableEq

/-- String conversion of an id inside a template literal; a numeric id is a
database key, an integer small enough to be printed in plain decimal. -/
def ItemId.toStr : ItemId → String
  | .num n => toString n
  | .str s => s

/-- One element of the array returned by `GET /api/history`. -/
structure HistoryItem where
  id : ItemId
  unique_id : String
  original_filename : String
  status : String
  date : String
  deriving DecidableEq

/-- The three `useState` cells of the `History` component. -/
structure HistoryState where
  history : List HistoryItem
  loading : Bool
  error : Option String
  deriving DecidableEq

/-- The initial values: `useState([])`, `useState(true)`, `useState(null)`. -/
def HistoryState.init : HistoryState :=
  { history := [], loading := true, error := none }

/-- The message set by the 401 branch of `fetchHistory`. -/
def loginPrompt : String := "Please log in to view your history."

/-- The message set by the `catch` block of `fetchHistory`. -/
def loadErrorMessage : String := "Could not load history. Is the server running?"

/-- The `catch` and `finally` blocks of `fetchHistory`. -/
def fetchHistoryCatch (s : HistoryState) : HistoryState × List Effect :=
  ({ s with error := some loadErrorMessage, loading := false },
   [Effect.consoleError ""])

/-- The part of `fetchHistory` that runs once `fetch` has settled. -/
def fetchHistoryResponse (s : HistoryState) :
    FetchResult (List HistoryItem) → HistoryState × List Effect
  | .networkError => fetchHistoryCatch s
  | .response status body =>
    if status = 401 then
      -- setError(...); setLoading(false); return;  (then finally: setLoading(false))
      ({ s with error := some loginPrompt, loading := false }, [])
    else if !responseOk status then
      -- throw new Error("Failed to fetch history")
      fetchHistoryCatch s
    else
      match body with
      | none => fetchHistoryCatch s
      | some data =>
        -- setHistory(data); finally: setLoading(false)
        ({ s with history := data, loading := false }, [])

/-- The handler `fetchHistory`: one GET request, then the response handling. -/
def fetchHistory (s : HistoryState) (r : FetchResult (List HistoryItem)) :
    HistoryState × List Effect :=
  let out := fetchHistoryResponse s r
  (out.1, Effect.fetch "GET" (origin ++ "/api/history") :: out.2)

/-- The part of `handleDelete` that runs once `fetch` has settled.  The
updater passed to `setHistory` runs on the list current at that moment. -/
def handleDeleteResponse (s : HistoryState) (fileId : ItemId) :
    FetchResult JsVal → HistoryState × List Effect
  | .networkError =>
    (s, [Effect.consoleError "Delete failed:", Effect.alert "Error occurred while deleting."])
  | .response status _ =>
    if responseOk status then
      ({ s with history := s.history.filter (fun item => item.id ≠ fileId) }, [])
    else
      (s, [Effect.alert "Failed to delete the file."])

/-- The handler `handleDelete`; `confirmed` is the answer of `window.confirm`. -/
def handleDelete (s : HistoryState) (fileId : ItemId) (confirmed : Bool)
    (r : FetchResult JsVal) : HistoryState × List Effect :=
  if !confirmed then
    (s, [])
  else
    let out := handleDeleteResponse s fileId r
    (out.1, Effect.fetch "DELETE" (origin ++ "/api/history/" ++ fileId.toStr) :: out.2)

/-- The helper `getDownloadLink` of History.jsx. -/
def getDownloadLink (uniqueId : String) : String :=
  origin ++ "/api/download/" ++ uniqueId

/-- The helper `getPreviewLink` of History.jsx. -/
def getPreviewLink (uniqueId : String) : String :=
  origin ++ "/api/view/" ++ uniqueId

/-- An element rendered inside the `card-footer` of a history card. -/
inductive FooterElement where
  /-- The anchor `<a href=... className="download-btn">`. -/
  | downloadLink (href : String)
  /-- The `<button disabled className="processing-btn">` with its label. -/
  | disabledButton (label : String)
  /-- The delete button, whose click calls `handleDelete(item.id)`. -/
  | deleteButton (id : ItemId)
  deriving DecidableEq

/-- The children of `<div className="card-footer">` for one item. -/
def cardFooter (item : HistoryItem) : List FooterElement :=
  [ if item.status = "COMPLETED" then
      FooterElement.downloadLink (getDownloadLink item.unique_id)
    else
      FooterElement.disabledButton
        (if item.status = "FAILED" then "❌ Failed" else "⏳ Processing..."),
    FooterElement.deleteButton item.id ]

/-- Whether a footer element is a download link. -/
def FooterElement.isDownloadLink : FooterElement → Bool
  | .downloadLink _ => true
  | _ => false

/-- Equality of two strings ignoring ASCII letter case: the reading of the
words "in any letter case" of the specification. -/
def equalsIgnoreCase (a b : String) : Bool :=
  a.data.map Char.toLower == b.data.map Char.toLower

/-- Upper-casing of the ASCII letters of a string. -/
def asciiUpper (s : String) : String :=
  ⟨s.data.map Char.toUpper⟩

/-! ## Upload.jsx -/

/-- A `File` object picked in the file input. -/
structure File where
  name : String
  bytes : List Nat
  deriving DecidableEq

/-- The five `useState` cells of the `Upload` component. -/
structure UploadState where
  fileToUpload : Option File
  previewURL : Option String
  isUploading : Bool
  uploadMessage : String
  downloadId : JsVal

/-- The initial values of the `Upload` component. -/
def UploadState.init : UploadState :=
  { fileToUpload := none, previewURL := none, isUploading := false,
    uploadMessage := "Ready for Enhancement", downloadId := JsVal.null }

/-- The handler `handleImageChange`.  `files` is `e.target.files` and
`createObjectURL` is the browser facility `URL.createObjectURL`. -/
def handleImageChange (createObjectURL : File → String) (s : UploadState)
    (files : Option (List File)) : UploadState :=
  match files with
  | some (file :: _) =>
    { s with
      fileToUpload := some file
      previewURL := some (createObjectURL file)
      uploadMessage := "File selected: " ++ file.name
      downloadId := JsVal.null }
  | _ => s

/-- The status `Selected` of the specification, read on the cells of the
component: a file is held, no upload is in flight and no download id is
recorded. -/
def UploadState.isSelected (s : UploadState) : Bool :=
  s.fileToUpload.isSome && !s.isUploading && !s.downloadId.truthy

/-- The message set by the `catch` block of `handleUpload`. -/
def networkFailedMessage : String :=
  "Network connection failed. Is the Flask server running?"

/-- The `catch` and `finally` blocks of `handleUpload`. -/
def handleUploadCatch (s : UploadState) : UploadState × List Effect :=
  ({ s with uploadMessage := networkFailedMessage, isUploading := false },
   [Effect.consoleError "Network Error:"])

/-- The part of `handleUpload` that runs once `fetch` has settled: the rest
of the `try` block, the `catch` block and the `finally` block.  None of it
reads a state cell, so it acts on the state current at that moment.
`toUpperCase` is the builtin `String.prototype.toUpperCase`. -/
def handleUploadResponse (toUpperCase : String → String) (s : UploadState) :
    FetchResult JsVal → UploadState × List Effect
  | .networkError => handleUploadCatch s
  | .response _ none => handleUploadCatch s
  | .response status (some data) =>
    if responseOk status then
      match data.getProp "status" with
      | some (JsVal.str st) =>
        let s1 := { s with
          uploadMessage := "Success! Image enhancement is " ++ toUpperCase st ++ "." }
        let s2 :=
          if st = "completed" then
            { s1 with downloadId := (data.getProp "filename").getD JsVal.undefined }
          else s1
        ({ s2 with fileToUpload := none, isUploading := false }, [])
      | _ =>
        -- data.status.toUpperCase() raises a TypeError before any setter runs
        handleUploadCatch s
    else
      match data.getProp "message" with
      | some m =>
        match (m.orElse (JsVal.str "Server error occurred.")).toStr with
        | some text =>
          ({ s with
             uploadMessage := "Upload Failed: " ++ text
             downloadId := JsVal.null
             isUploading := false },
           [Effect.consoleError "Flask API Error:"])
        | none =>
          -- the template literal raises a TypeError before any setter runs
          handleUploadCatch s
      | none => handleUploadCatch s

/-- The three setter calls of `handleUpload` that precede the request: the
state while the upload is in flight. -/
def handleUploadStart (s : UploadState) : UploadState :=
  { s with
    isUploading := true
    uploadMessage := "Uploading and Processing..."
    downloadId := JsVal.null }

/-- The handler `handleUpload`. -/
def handleUpload (toUpperCase : String → String) (s : UploadState)
    (r : FetchResult JsVal) : UploadState × List Effect :=
  match s.fileToUpload with
  | none => ({ s with uploadMessage := "Please select an image first." }, [])
  | some _ =>
    let out := handleUploadResponse toUpperCase (handleUploadStart s) r
    (out.1, Effect.fetch "POST" (origin ++ "/api/upload") :: out.2)

/-- The helper `getDownloadURL` of Upload.jsx; `none` when the template
literal raises a TypeError. -/
def getDownloadURL (id : JsVal) : Option String :=
  match id.toStr with
  | some text => some (origin ++ "/api/download/" ++ text)
  | none => none

/-! ## App.jsx and Login.jsx -/

/-- The form cells of `LoginPopup` that `handleSubmit` reads or writes. -/
structure LoginState where
  isRegistering : Bool
  email : String
  username : String
  password : String
  isSubmitting : Bool
  message : String
  deriving DecidableEq

/-- The initial values of the form cells. -/
def LoginState.init : LoginState :=
  { isRegistering := false, email := "", username := "", password := "",
    isSubmitting := false, message := "" }

/-- The `user` cell of `App` (`null` until somebody logs in) together with
the form of the login popup that `App` mounts. -/
structure Session where
  user : JsVal
  form : LoginState

/-- The state of a freshly mounted `App`. -/
def Session.init : Session :=
  { user := JsVal.null, form := LoginState.init }

/-- The effect `checkAuth` of `App`, run once on mount. -/
def checkAuth (s : Session) : FetchResult JsVal → Session × List Effect
  | .response _ (some data) =>
    match data.getProp "authenticated" with
    | some a =>
      (if a.truthy then { s with user := data } else s,
       [Effect.fetch "GET" (origin ++ "/api/check-auth")])
    | none =>
      (s, [Effect.fetch "GET" (origin ++ "/api/check-auth"),
           Effect.consoleError "Auth check failed:"])
  | _ =>
    (s, [Effect.fetch "GET" (origin ++ "/api/check-auth"),
         Effect.consoleError "Auth check failed:"])

/-- The `catch` and `finally` blocks of `handleSubmit`. -/
def handleSubmitCatch (s : Session) : Session × List Effect :=
  ({ s with form := { s.form with
       message := "Network error. Is Backend running?", isSubmitting := false } },
   [Effect.consoleError "Auth Error:"])

/-- The part of `handleSubmit` that runs once `fetch` has settled.
`registering` is the value of `isRegistering` captured by the closure when the
handler was called, and `setUser` tells whether the `setUser` prop was passed
(`App` always passes it). -/
def handleSubmitResponse (setUser : Bool) (registering : Bool) (s : Session) :
    FetchResult JsVal → Session × List Effect
  | .networkError => handleSubmitCatch s
  | .response _ none => handleSubmitCatch s
  | .response status (some data) =>
    match data.getProp "message" with
    | none => handleSubmitCatch s
    | some msg =>
      -- both branches start with a template literal on data.message; when it
      -- raises a TypeError no setter has run yet
      match msg.toStr with
      | none => handleSubmitCatch s
      | some text =>
      if responseOk status then
        if registering then
          ({ s with form := { s.form with
               isRegistering := false
               password := ""
               message := "Account created! Please log in."
               isSubmitting := false } }, [])
        else
          ({ user :=
               if setUser then
                 JsVal.obj [("username",
                   ((data.getProp "username").getD JsVal.undefined).orElse (JsVal.str "User"))]
               else s.user
             form := { s.form with
               message := "Success: " ++ text, isSubmitting := false } },
           [Effect.closeLater])
      else
        ({ s with form := { s.form with
             message := "Error: " ++ text, isSubmitting := false } }, [])

/-- The two setter calls of `handleSubmit` that precede the request: the
state while the submit is in flight. -/
def handleSubmitStart (s : Session) : Session :=
  { s with form := { s.form with isSubmitting := true, message := "Processing..." } }

/-- The handler `handleSubmit` of the login form. -/
def handleSubmit (setUser : Bool) (s : Session) (r : FetchResult JsVal) :
    Session × List Effect :=
  let endpoint := if s.form.isRegistering then "/api/register" else "/api/login"
  let out := handleSubmitResponse setUser s.form.isRegistering (handleSubmitStart s) r
  (out.1, Effect.fetch "POST" (origin ++ endpoint) :: out.2)

/-- The attribute `disabled` that the render of `LoginPopup` gives to the
submit button of the form: the value of `isSubmitting`. -/
def submitDisabled (s : Session) : Bool :=
  s.form.isSubmitting

/-- Whether the session is authenticated: the `user` cell is not `null`. -/
def Session.authenticated (s : Session) : Bool :=
  match s.user with
  | JsVal.null => false
  | _ => true

/-- The operations of the session manager, each with the outcome of its
request: the probe `checkAuth`, and `handleSubmit` with the form in login
mode or in registration mode. -/
inductive SessionOp where
  | probeAuth (r : FetchResult JsVal)
  | login (r : FetchResult JsVal)
  | register (r : FetchResult JsVal)

/-- The session after one operation (`App` passes `setUser` to the form). -/
def SessionOp.run (s : Session) : SessionOp → Session
  | .probeAuth r => (checkAuth s r).1
  | .login r =>
    (handleSubmit true { s with form := { s.form with isRegistering := false } } r).1
  | .register r =>
    (handleSubmit true { s with form := { s.form with isRegistering := true } } r).1

/-- The session after a sequence of operations, run from left to right. -/
def runOps (s : Session) (ops : List SessionOp) : Session :=
  ops.foldl SessionOp.run s

/-! ## Theorems: the history list -/

/-- Filtering a list whose ids are pairwise distinct by `id ≠ x`, where `x`
is the id of one of its items, removes that single item and keeps the items
before and after it in place. -/
theorem filter_id_ne_split (l : List HistoryItem) (x : ItemId)
    (hnodup : (l.map (fun item => item.id)).Nodup)
    (hx : x ∈ l.map (fun item => item.id)) :
    ∃ pre it post, l = pre ++ it :: post ∧ it.id = x ∧
      l.filter (fun item => item.id ≠ x) = pre ++ post := by
  induction l with
  | nil => simp at hx
  | cons a rest ih =>
    rw [List.map_cons, List.nodup_cons] at hnodup
    obtain ⟨ha, hrest⟩ := hnodup
    by_cases hax : a.id = x
    · refine ⟨[], a, rest, rfl, hax, ?_⟩
      have hkeep : ∀ item ∈ rest, item.id ≠ x := by
        intro item hmem hid
        apply ha
        rw [hax, ← hid]
        exact List.mem_map_of_mem _ hmem
      rw [List.filter_cons]
      simp only [hax, ne_eq, not_true_eq_false, decide_False, Bool.false_eq_true, if_false,
        List.nil_append]
      apply List.filter_eq_self.mpr
      intro item hmem
      simpa using hkeep item hmem
    · have hx2 : x ∈ rest.map (fun item => item.id) := by
        rw [List.map_cons, List.mem_cons] at hx
        rcases hx with h | h
        · exact absurd h.symm hax
        · exact h
      obtain ⟨pre, it, post, hsplit, hid, hfil⟩ := ih hrest hx2
      refine ⟨a :: pre, it, post, by rw [hsplit]; rfl, hid, ?_⟩
      rw [List.filter_cons]
      simp only [ne_eq, hax, not_false_eq_true, decide_True, if_true, List.cons_append]
      rw [← hfil]

/-- C1: on a history list with pairwise distinct ids that holds an item of
id `x`, a confirmed `handleDelete x` answered with a 2xx status yields a list
with exactly one item fewer and no item of id `x`; what remains is the old
list with that one item taken out, the other items in their original order. -/
theorem handleDelete_success_removes_item (s : HistoryState) (x : ItemId)
    (status : Nat) (body : Option JsVal)
    (hnodup : (s.history.map (fun item => item.id)).Nodup)
    (hx : x ∈ s.history.map (fun item => item.id))
    (hok : responseOk status = true) :
    (handleDelete s x true (.response status body)).1.history.length + 1
        = s.history.length ∧
    x ∉ (handleDelete s x true (.response status body)).1.history.map
        (fun item => item.id) ∧
    ∃ pre it post, s.history = pre ++ it :: post ∧ it.id = x ∧
      (handleDelete s x true (.response status body)).1.history = pre ++ post := by
  obtain ⟨pre, it, post, hsplit, hid, hfil⟩ := filter_id_ne_split s.history x hnodup hx
  have hres : (handleDelete s x true (.response status body)).1.history = pre ++ post := by
    rw [← hfil]
    simp [handleDelete, handleDeleteResponse, hok]
  have hnot : x ∉ (s.history.filter (fun item => item.id ≠ x)).map (fun item => item.id) := by
    intro hmem
    obtain ⟨item, hitem, hidx⟩ := List.mem_map.mp hmem
    have := (List.mem_filter.mp hitem).2
    simp [hidx] at this
  refine ⟨?_, ?_, pre, it, post, hsplit, hid, hres⟩
  · rw [hres, hsplit]
    simp
    omega
  · rw [hres, ← hfil]
    exact hnot

/-- Witness of C1: deleting id 2 from the list of ids 1, 2, 3. -/
theorem handleDelete_success_removes_item_witness :
    (handleDelete
        { history := [⟨.num 1, "u1", "a.png", "COMPLETED", "d1"⟩,
                      ⟨.num 2, "u2", "b.png", "FAILED", "d2"⟩,
                      ⟨.num 3, "u3", "c.png", "PENDING", "d3"⟩],
          loading := false, error := none }
        (.num 2) true (.response 200 none)).1.history.length + 1 = 3 :=
  (handleDelete_success_removes_item
    { history := [⟨.num 1, "u1", "a.png", "COMPLETED", "d1"⟩,
                  ⟨.num 2, "u2", "b.png", "FAILED", "d2"⟩,
                  ⟨.num 3, "u3", "c.png", "PENDING", "d3"⟩],
      loading := false, error := none }
    (.num 2) 200 none (by decide) (by decide) (by decide)).1

/-- C2: a `handleDelete` whose request fails, by a response outside 200..299
or by a transport error, leaves the whole history state, hence the list with
its items and their order, as it was (whatever `window.confirm` answered). -/
theorem handleDelete_failure_keeps_list (s : HistoryState) (x : ItemId)
    (confirmed : Bool) (r : FetchResult JsVal) (hfail : r.failed = true) :
    (handleDelete s x confirmed r).1 = s ∧
    (handleDelete s x confirmed r).1.history.length = s.history.length := by
  have hstate : (handleDelete s x confirmed r).1 = s := by
    cases r with
    | networkError => cases confirmed <;> simp [handleDelete, handleDeleteResponse]
    | response status body =>
      have hno : responseOk status = false := by
        simpa [FetchResult.failed] using hfail
      cases confirmed <;> simp [handleDelete, handleDeleteResponse, hno]
  exact ⟨hstate, by rw [hstate]⟩

/-- Witness of C2: a 500 answer to the deletion of id 1 changes nothing. -/
theorem handleDelete_failure_keeps_list_witness :
    (handleDelete
        { history := [⟨.num 1, "u1", "a.png", "COMPLETED", "d1"⟩],
          loading := false, error := none }
        (.num 1) true (.response 500 none)).1
      = { history := [⟨.num 1, "u1", "a.png", "COMPLETED", "d1"⟩],
          loading := false, error := none } :=
  (handleDelete_failure_keeps_list
    { history := [⟨.num 1, "u1", "a.png", "COMPLETED", "d1"⟩],
      loading := false, error := none }
    (.num 1) true (.response 500 none) (by decide)).1

/-- C3, as amended: a `fetchHistory` answered with status 401 ends, on every
state, with the log-in prompt as error, `loading = false` and the list left
as it was; the load-error message is not set.  So the list is empty when the
call runs on the initial state, as the call of the mount effect does, and a
list loaded before is not cleared. -/
theorem fetchHistory_401_unauthenticated (body : Option (List HistoryItem)) :
    (fetchHistory HistoryState.init (.response 401 body)).1
      = { history := [], loading := false,
          error := some "Please log in to view your history." } ∧
    (fetchHistory HistoryState.init (.response 401 body)).1.error
      ≠ some loadErrorMessage ∧
    ∀ s : HistoryState,
      (fetchHistory s (.response 401 body)).1
        = { history := s.history, loading := false, error := some loginPrompt } := by
  refine ⟨?_, ?_, ?_⟩
  · simp [fetchHistory, fetchHistoryResponse, HistoryState.init, loginPrompt]
  · simp [fetchHistory, fetchHistoryResponse, HistoryState.init, loginPrompt,
      loadErrorMessage]
  · intro s
    simp [fetchHistory, fetchHistoryResponse]

/-- Counterexample to C3 as stated: on a state that holds one item, a
`fetchHistory` answered with status 401 leaves that item in the list, which is
therefore not empty, while the error is the log-in prompt. -/
theorem fetchHistory_401_keeps_loaded_list :
    (fetchHistory
        { history := [⟨.num 1, "u1", "a.png", "COMPLETED", "d1"⟩],
          loading := false, error := none }
        (.response 401 none)).1
      = { history := [⟨.num 1, "u1", "a.png", "COMPLETED", "d1"⟩],
          loading := false, error := some "Please log in to view your history." } ∧
    (fetchHistory
        { history := [⟨.num 1, "u1", "a.png", "COMPLETED", "d1"⟩],
          loading := false, error := none }
        (.response 401 none)).1.history ≠ [] := by
  refine ⟨by decide, by decide⟩

/-! ## Theorems: login -/

/-- C4, as amended: for every 2xx login response whose body is a JSON value
with readable properties (not `null`) and a `message` that converts to text,
`handleSubmit` in login mode leaves `user` non-null, and `user.username` is
the username of the response when that value is truthy and the fallback "User"
otherwise, that is when the username is missing or is a falsy value such as
the empty string. -/
theorem handleSubmit_login_sets_user (s : Session) (status : Nat) (data m u : JsVal)
    (text : String)
    (hlogin : s.form.isRegistering = false) (hok : responseOk status = true)
    (hm : data.getProp "message" = some m) (hconv : m.toStr = some text)
    (hu : data.getProp "username" = some u) :
    (handleSubmit true s (.response status (some data))).1.user
      = JsVal.obj [("username", if u.truthy then u else JsVal.str "User")] ∧
    (handleSubmit true s (.response status (some data))).1.user.getProp "username"
      = some (if u.truthy then u else JsVal.str "User") ∧
    (handleSubmit true s (.response status (some data))).1.user.truthy = true := by
  have huser : (handleSubmit true s (.response status (some data))).1.user
      = JsVal.obj [("username", if u.truthy then u else JsVal.str "User")] := by
    simp [handleSubmit, handleSubmitStart, handleSubmitResponse, hlogin, hok, hm, hconv, hu,
      JsVal.orElse]
  refine ⟨huser, ?_, ?_⟩
  · rw [huser]
    simp [JsVal.getProp, List.lookup]
  · rw [huser]
    rfl

/-- Witness of C4: the body with message "ok" and username "ana". -/
theorem handleSubmit_login_sets_user_witness :
    (handleSubmit true Session.init
        (.response 200 (some (.obj [("message", .str "ok"), ("username", .str "ana")])))).1.user
      = JsVal.obj [("username",
          if (JsVal.str "ana").truthy then JsVal.str "ana" else JsVal.str "User")] :=
  (handleSubmit_login_sets_user Session.init 200
    (.obj [("message", .str "ok"), ("username", .str "ana")]) (.str "ok") (.str "ana") "ok"
    rfl (by decide) rfl rfl rfl).1

/-- Counterexample to C4 as stated: the 200 login response with message "ok"
and the empty string as username has a username, yet `user.username` ends up
as "User" and not as that username. -/
theorem handleSubmit_login_empty_username :
    (JsVal.obj [("message", .str "ok"), ("username", .str "")]).getProp "username"
      = some (JsVal.str "") ∧
    (handleSubmit true Session.init
        (.response 200 (some (.obj [("message", .str "ok"), ("username", .str "")])))).1.user.getProp
        "username" = some (JsVal.str "User") ∧
    (handleSubmit true Session.init
        (.response 200 (some (.obj [("message", .str "ok"), ("username", .str "")])))).1.user.getProp
        "username"
      ≠ (JsVal.obj [("message", .str "ok"), ("username", .str "")]).getProp "username" := by
  refine ⟨rfl, rfl, ?_⟩
  intro h
  have h2 : some (JsVal.str "User") = some (JsVal.str "") := h
  simp at h2

/-! ## Theorems: upload -/

/-- C5: with no file selected, `handleUpload` performs no side effect at all,
in particular no `fetch`, and only sets the prompt message: `isUploading`,
`downloadId`, the selected file and the preview are as before. -/
theorem handleUpload_no_file (toUpperCase : String → String) (s : UploadState)
    (r : FetchResult JsVal) (hfile : s.fileToUpload = none) :
    (handleUpload toUpperCase s r).2 = [] ∧
    (handleUpload toUpperCase s r).1
      = { s with uploadMessage := "Please select an image first." } ∧
    (handleUpload toUpperCase s r).1.isUploading = s.isUploading ∧
    (handleUpload toUpperCase s r).1.downloadId = s.downloadId ∧
    (handleUpload toUpperCase s r).1.fileToUpload = s.fileToUpload ∧
    (handleUpload toUpperCase s r).1.previewURL = s.previewURL := by
  simp [handleUpload, hfile]

/-- Witness of C5: the freshly mounted component, whatever the network does. -/
theorem handleUpload_no_file_witness :
    (handleUpload asciiUpper UploadState.init .networkError).2 = [] :=
  (handleUpload_no_file asciiUpper UploadState.init .networkError rfl).1

/-- C6: with a file selected, a 2xx upload response whose body has status
"completed" and filename `f` leaves `downloadId = f`, and `getDownloadURL f`
is the backend origin followed by "/api/download/" and `f`, so it ends in
"/api/download/" followed by `f`. -/
theorem handleUpload_completed_downloadId (toUpperCase : String → String)
    (s : UploadState) (file : File) (status : Nat) (data : JsVal) (f : String)
    (hfile : s.fileToUpload = some file) (hok : responseOk status = true)
    (hstatus : data.getProp "status" = some (JsVal.str "completed"))
    (hname : data.getProp "filename" = some (JsVal.str f)) :
    (handleUpload toUpperCase s (.response status (some data))).1.downloadId
      = JsVal.str f ∧
    getDownloadURL (JsVal.str f)
      = some ("http://127.0.0.1:5000" ++ ("/api/download/" ++ f)) ∧
    ∃ url, getDownloadURL (JsVal.str f) = some url ∧
      ("/api/download/" ++ f).data <:+ url.data := by
  have hurl : getDownloadURL (JsVal.str f)
      = some ("http://127.0.0.1:5000" ++ ("/api/download/" ++ f)) :=
    congrArg some (String.append_assoc "http://127.0.0.1:5000" "/api/download/" f)
  refine ⟨?_, hurl, _, hurl, ?_⟩
  · simp [handleUpload, handleUploadStart, handleUploadResponse, hfile, hok, hstatus, hname]
  · rw [String.data_append]
    exact List.suffix_append _ _

/-- Witness of C6: the filename "abc123". -/
theorem handleUpload_completed_downloadId_witness :
    (handleUpload asciiUpper
        { UploadState.init with fileToUpload := some ⟨"cat.png", [137, 80]⟩ }
        (.response 200 (some (.obj [("status", .str "completed"),
                                    ("filename", .str "abc123")])))).1.downloadId
      = JsVal.str "abc123" ∧
    getDownloadURL (JsVal.str "abc123")
      = some "http://127.0.0.1:5000/api/download/abc123" :=
  ⟨(handleUpload_completed_downloadId asciiUpper
      { UploadState.init with fileToUpload := some ⟨"cat.png", [137, 80]⟩ }
      ⟨"cat.png", [137, 80]⟩ 200
      (.obj [("status", .str "completed"), ("filename", .str "abc123")]) "abc123"
      rfl (by decide) rfl rfl).1, by decide⟩

/-- C7, as amended: selecting file `a` and then file `b`, with nothing in
between, gives the very state that selecting `b` alone gives from the same
start: the selected file is `b`, the preview is the object URL made for `b`
(the one made for `a` is in no cell of the state), `downloadId` is `null` and
the message names `b`.  `isUploading` is left as it was, so the job is in the
selected state exactly when no upload was in flight at the start. -/
theorem handleImageChange_twice (createObjectURL : File → String) (s : UploadState)
    (a b : File) (moreA moreB : List File) :
    handleImageChange createObjectURL
        (handleImageChange createObjectURL s (some (a :: moreA))) (some (b :: moreB))
      = handleImageChange createObjectURL s (some (b :: moreB)) ∧
    handleImageChange createObjectURL
        (handleImageChange createObjectURL s (some (a :: moreA))) (some (b :: moreB))
      = { fileToUpload := some b
          previewURL := some (createObjectURL b)
          isUploading := s.isUploading
          uploadMessage := "File selected: " ++ b.name
          downloadId := JsVal.null } ∧
    (handleImageChange createObjectURL
        (handleImageChange createObjectURL s (some (a :: moreA)))
        (some (b :: moreB))).isSelected = !s.isUploading := by
  refine ⟨rfl, rfl, ?_⟩
  simp [handleImageChange, UploadState.isSelected, JsVal.truthy]

/-- Counterexample to C7 as stated: while the upload of "x.png" is in
flight, "a.png" and then "b.png" are selected with no submit in between; the
job holds "b.png" but is still uploading, so its status is not the selected
one. -/
theorem handleImageChange_twice_while_uploading :
    (handleImageChange (fun f => "blob:" ++ f.name)
        (handleImageChange (fun f => "blob:" ++ f.name)
          (handleUploadStart
            (handleImageChange (fun f => "blob:" ++ f.name) UploadState.init
              (some [⟨"x.png", [0]⟩])))
          (some [⟨"a.png", [1]⟩]))
        (some [⟨"b.png", [2]⟩])).fileToUpload = some ⟨"b.png", [2]⟩ ∧
    (handleImageChange (fun f => "blob:" ++ f.name)
        (handleImageChange (fun f => "blob:" ++ f.name)
          (handleUploadStart
            (handleImageChange (fun f => "blob:" ++ f.name) UploadState.init
              (some [⟨"x.png", [0]⟩])))
          (some [⟨"a.png", [1]⟩]))
        (some [⟨"b.png", [2]⟩])).isUploading = true ∧
    (handleImageChange (fun f => "blob:" ++ f.name)
        (handleImageChange (fun f => "blob:" ++ f.name)
          (handleUploadStart
            (handleImageChange (fun f => "blob:" ++ f.name) UploadState.init
              (some [⟨"x.png", [0]⟩])))
          (some [⟨"a.png", [1]⟩]))
        (some [⟨"b.png", [2]⟩])).isSelected = false := by
  refine ⟨rfl, rfl, rfl⟩

/-! ## Theorems: the card footer -/

/-- C8, as amended: the footer of a history card holds a download link if
and only if the status of the item is exactly "COMPLETED", letter case
included; the link then points to the download URL of the item. -/
theorem cardFooter_download_iff (item : HistoryItem) :
    ((∃ e ∈ cardFooter item, e.isDownloadLink = true) ↔ item.status = "COMPLETED") ∧
    (item.status = "COMPLETED" →
      FooterElement.downloadLink (getDownloadLink item.unique_id) ∈ cardFooter item) := by
  by_cases h : item.status = "COMPLETED"
  · simp [cardFooter, h, FooterElement.isDownloadLink]
  · simp [cardFooter, h, FooterElement.isDownloadLink]

/-- Witness of C8 as amended: an item of status "COMPLETED" has its link. -/
theorem cardFooter_download_iff_witness :
    FooterElement.downloadLink (getDownloadLink "u1")
      ∈ cardFooter ⟨.num 1, "u1", "a.png", "COMPLETED", "d1"⟩ :=
  (cardFooter_download_iff ⟨.num 1, "u1", "a.png", "COMPLETED", "d1"⟩).2 rfl

/-- Counterexample to C8 as stated: the status "completed" equals "COMPLETED"
up to letter case, yet the footer of such an item holds no download link but
the disabled processing button. -/
theorem cardFooter_lowercase_completed :
    equalsIgnoreCase "completed" "COMPLETED" = true ∧
    cardFooter ⟨.num 1, "u1", "a.png", "completed", "d1"⟩
      = [FooterElement.disabledButton "⏳ Processing...",
         FooterElement.deleteButton (.num 1)] ∧
    ¬ ∃ e ∈ cardFooter ⟨.num 1, "u1", "a.png", "completed", "d1"⟩,
        e.isDownloadLink = true := by
  refine ⟨by decide, by decide, by decide⟩

/-- C9: an item whose status is "FAILED" in any letter case gets no download
link: its footer is a disabled button followed by the delete button. -/
theorem cardFooter_failed_no_download (item : HistoryItem)
    (hfailed : equalsIgnoreCase item.status "FAILED" = true) :
    (∀ e ∈ cardFooter item, e.isDownloadLink = false) ∧
    ∃ label, cardFooter item
      = [FooterElement.disabledButton label, FooterElement.deleteButton item.id] := by
  have hne : item.status ≠ "COMPLETED" := by
    intro h
    rw [h] at hfailed
    revert hfailed
    decide
  refine ⟨?_, ?_⟩
  · simp [cardFooter, hne, FooterElement.isDownloadLink]
  · refine ⟨if item.status = "FAILED" then "❌ Failed" else "⏳ Processing...", ?_⟩
    simp [cardFooter, hne]

/-- Witness of C9: the status "Failed". -/
theorem cardFooter_failed_no_download_witness :
    equalsIgnoreCase "Failed" "FAILED" = true ∧
    ∃ label, cardFooter ⟨.num 7, "u7", "g.png", "Failed", "d7"⟩
      = [FooterElement.disabledButton label, FooterElement.deleteButton (.num 7)] :=
  ⟨by decide,
   (cardFooter_failed_no_download ⟨.num 7, "u7", "g.png", "Failed", "d7"⟩ (by decide)).2⟩

/-! ## Theorems: the status of an upload response -/

/-- C10, as amended: with a file selected, after a 2xx upload response whose
body has the string `st` as status, `downloadId` is the filename of the
response when `st` is exactly "completed" (lower case), and `null` for any
other `st`, "COMPLETED" and "Completed" included; in both cases the status is
shown, upper-cased, in the message. -/
theorem handleUpload_success_status (toUpperCase : String → String)
    (s : UploadState) (file : File) (status : Nat) (data name : JsVal) (st : String)
    (hfile : s.fileToUpload = some file) (hok : responseOk status = true)
    (hstatus : data.getProp "status" = some (JsVal.str st))
    (hname : data.getProp "filename" = some name) :
    (handleUpload toUpperCase s (.response status (some data))).1.downloadId
      = (if st = "completed" then name else JsVal.null) ∧
    (handleUpload toUpperCase s (.response status (some data))).1.uploadMessage
      = "Success! Image enhancement is " ++ toUpperCase st ++ "." := by
  by_cases h : st = "completed"
  · simp [handleUpload, handleUploadStart, handleUploadResponse, hfile, hok, hstatus, hname, h]
  · simp [handleUpload, handleUploadStart, handleUploadResponse, hfile, hok, hstatus, hname, h]

/-- Witness of C10 as amended: the status "processing" records no id. -/
theorem handleUpload_success_status_witness :
    (handleUpload asciiUpper
        { UploadState.init with fileToUpload := some ⟨"cat.png", [137, 80]⟩ }
        (.response 200 (some (.obj [("status", .str "processing"),
                                    ("filename", .str "abc123")])))).1.downloadId
      = (if "processing" = "completed" then JsVal.str "abc123" else JsVal.null) :=
  (handleUpload_success_status asciiUpper
    { UploadState.init with fileToUpload := some ⟨"cat.png", [137, 80]⟩ }
    ⟨"cat.png", [137, 80]⟩ 200
    (.obj [("status", .str "processing"), ("filename", .str "abc123")])
    (.str "abc123") "processing" rfl (by decide) rfl rfl).1

/-- Counterexample to C10 as stated: the status "COMPLETED" equals the marker
"completed" up to letter case, yet after that 200 response `downloadId` is
`null` and the filename "abc123" is not recorded. -/
theorem handleUpload_uppercase_completed :
    equalsIgnoreCase "COMPLETED" "completed" = true ∧
    (handleUpload asciiUpper
        { UploadState.init with fileToUpload := some ⟨"cat.png", [137, 80]⟩ }
        (.response 200 (some (.obj [("status", .str "COMPLETED"),
                                    ("filename", .str "abc123")])))).1.downloadId
      = JsVal.null ∧
    (handleUpload asciiUpper
        { UploadState.init with fileToUpload := some ⟨"cat.png", [137, 80]⟩ }
        (.response 200 (some (.obj [("status", .str "COMPLETED"),
                                    ("filename", .str "abc123")])))).1.uploadMessage
      = "Success! Image enhancement is COMPLETED." := by
  refine ⟨by decide, rfl, by decide⟩

/-! ## Theorems: a file selected while an upload is in flight -/

/-- C11, as amended: when file `b` is selected while an upload started from
state `s` is in flight, the response of that upload is applied to the job that
now holds `b`.  A 2xx response with a string status `st` clears the selected
file, keeps the preview of `b`, and sets `downloadId` to the filename of the
response when `st` is exactly "completed".  On every other outcome, a
transport failure, a body that is not JSON, a status outside 200..299, a 2xx
body without a string status, the job still holds `b` with `downloadId = null`
and is no longer uploading. -/
theorem handleUploadResponse_after_reselect (toUpperCase : String → String)
    (createObjectURL : File → String) (s : UploadState) (b : File) (more : List File)
    (status : Nat) (data name : JsVal) (st : String)
    (hok : responseOk status = true)
    (hstatus : data.getProp "status" = some (JsVal.str st))
    (hname : data.getProp "filename" = some name) :
    (handleUploadResponse toUpperCase
        (handleImageChange createObjectURL (handleUploadStart s) (some (b :: more)))
        (.response status (some data))).1
      = { fileToUpload := none
          previewURL := some (createObjectURL b)
          isUploading := false
          uploadMessage := "Success! Image enhancement is " ++ toUpperCase st ++ "."
          downloadId := if st = "completed" then name else JsVal.null } ∧
    (handleUploadResponse toUpperCase
        (handleImageChange createObjectURL (handleUploadStart s) (some (b :: more)))
        .networkError).1
      = { fileToUpload := some b
          previewURL := some (createObjectURL b)
          isUploading := false
          uploadMessage := networkFailedMessage
          downloadId := JsVal.null } ∧
    (∀ status2 : Nat,
      (handleUploadResponse toUpperCase
          (handleImageChange createObjectURL (handleUploadStart s) (some (b :: more)))
          (.response status2 none)).1
        = { fileToUpload := some b
            previewURL := some (createObjectURL b)
            isUploading := false
            uploadMessage := networkFailedMessage
            downloadId := JsVal.null }) ∧
    (∀ (status2 : Nat) (data2 : JsVal), responseOk status2 = false →
      (handleUploadResponse toUpperCase
          (handleImageChange createObjectURL (handleUploadStart s) (some (b :: more)))
          (.response status2 (some data2))).1.fileToUpload = some b ∧
      (handleUploadResponse toUpperCase
          (handleImageChange createObjectURL (handleUploadStart s) (some (b :: more)))
          (.response status2 (some data2))).1.downloadId = JsVal.null ∧
      (handleUploadResponse toUpperCase
          (handleImageChange createObjectURL (handleUploadStart s) (some (b :: more)))
          (.response status2 (some data2))).1.previewURL = some (createObjectURL b) ∧
      (handleUploadResponse toUpperCase
          (handleImageChange createObjectURL (handleUploadStart s) (some (b :: more)))
          (.response status2 (some data2))).1.isUploading = false) ∧
    (∀ (status2 : Nat) (data2 : JsVal), responseOk status2 = true →
      (∀ st2 : String, data2.getProp "status" ≠ some (JsVal.str st2)) →
      (handleUploadResponse toUpperCase
          (handleImageChange createObjectURL (handleUploadStart s) (some (b :: more)))
          (.response status2 (some data2))).1
        = { fileToUpload := some b
            previewURL := some (createObjectURL b)
            isUploading := false
            uploadMessage := networkFailedMessage
            downloadId := JsVal.null }) := by
  refine ⟨?_, rfl, fun _ => rfl, ?_, ?_⟩
  · by_cases h : st = "completed"
    · simp [handleUploadResponse, handleImageChange, handleUploadStart, hok, hstatus, hname, h]
    · simp [handleUploadResponse, handleImageChange, handleUploadStart, hok, hstatus, hname, h]
  · intro status2 data2 hfail
    cases hd : data2.getProp "message" with
    | none =>
      simp [handleUploadResponse, handleImageChange, handleUploadStart, handleUploadCatch,
        hfail, hd]
    | some m =>
      cases hc : (m.orElse (JsVal.str "Server error occurred.")).toStr <;>
        simp [handleUploadResponse, handleImageChange, handleUploadStart, handleUploadCatch,
          hfail, hd, hc]
  · intro status2 data2 hok2 hnostr
    cases hd : data2.getProp "status" with
    | none =>
      simp [handleUploadResponse, handleImageChange, handleUploadStart, handleUploadCatch,
        hok2, hd]
    | some v =>
      cases v with
      | str st2 => exact absurd hd (hnostr st2)
      | _ =>
        simp [handleUploadResponse, handleImageChange, handleUploadStart, handleUploadCatch,
          hok2, hd]

/-- Witness of C11 as amended: file "a.png" is uploading, "b.png" is picked,
then the answer for "a.png" arrives with status "completed". -/
theorem handleUploadResponse_after_reselect_witness :
    (handleUploadResponse asciiUpper
        (handleImageChange (fun f => "blob:" ++ f.name)
          (handleUploadStart
            (handleImageChange (fun f => "blob:" ++ f.name) UploadState.init
              (some [⟨"a.png", [1]⟩])))
          (some [⟨"b.png", [2]⟩]))
        (.response 200 (some (.obj [("status", .str "completed"),
                                    ("filename", .str "a-out.png")])))).1
      = { fileToUpload := none
          previewURL := some ((fun f : File => "blob:" ++ f.name) ⟨"b.png", [2]⟩)
          isUploading := false
          uploadMessage := "Success! Image enhancement is " ++ asciiUpper "completed" ++ "."
          downloadId := if "completed" = "completed" then JsVal.str "a-out.png"
                        else JsVal.null } :=
  (handleUploadResponse_after_reselect asciiUpper (fun f => "blob:" ++ f.name)
    (handleImageChange (fun f => "blob:" ++ f.name) UploadState.init (some [⟨"a.png", [1]⟩]))
    ⟨"b.png", [2]⟩ [] 200
    (.obj [("status", .str "completed"), ("filename", .str "a-out.png")])
    (.str "a-out.png") "completed" (by decide) rfl rfl).1

/-- Counterexample to C11 as stated: "a.png" is selected and submitted, and
"b.png" is selected while that upload is in flight.  When the 200 answer for
"a.png" arrives (status "completed", filename "a-out.png") it is not
discarded: the selected file is cleared instead of being "b.png", and
`downloadId` is "a-out.png" instead of `null`. -/
theorem handleUploadResponse_stale_applied :
    (handleImageChange (fun f => "blob:" ++ f.name)
        (handleUploadStart
          (handleImageChange (fun f => "blob:" ++ f.name) UploadState.init
            (some [⟨"a.png", [1]⟩])))
        (some [⟨"b.png", [2]⟩])).fileToUpload = some ⟨"b.png", [2]⟩ ∧
    (handleUploadResponse asciiUpper
        (handleImageChange (fun f => "blob:" ++ f.name)
          (handleUploadStart
            (handleImageChange (fun f => "blob:" ++ f.name) UploadState.init
              (some [⟨"a.png", [1]⟩])))
          (some [⟨"b.png", [2]⟩]))
        (.response 200 (some (.obj [("status", .str "completed"),
                                    ("filename", .str "a-out.png")])))).1.fileToUpload
      = none ∧
    (handleUploadResponse asciiUpper
        (handleImageChange (fun f => "blob:" ++ f.name)
          (handleUploadStart
            (handleImageChange (fun f => "blob:" ++ f.name) UploadState.init
              (some [⟨"a.png", [1]⟩])))
          (some [⟨"b.png", [2]⟩]))
        (.response 200 (some (.obj [("status", .str "completed"),
                                    ("filename", .str "a-out.png")])))).1.downloadId
      = JsVal.str "a-out.png" := by
  refine ⟨rfl, rfl, rfl⟩

/-! ## Theorems: registration and refresh -/

/-- C12, as amended: in registration mode `handleSubmit` never touches
`user`, whatever the outcome of the request.  On a 2xx response whose body is
a JSON value with readable properties and a `message` that converts to text,
the form is switched to the login view (`isRegistering = false`, password
cleared, the other fields kept) without scheduling the closing of the popup.
On a 2xx response whose body is not JSON the form stays in registration mode,
password kept, with the network error message. -/
theorem handleSubmit_register_keeps_user (setUser : Bool) (s : Session)
    (status : Nat) (data m : JsVal) (text : String)
    (hreg : s.form.isRegistering = true) (hok : responseOk status = true)
    (hm : data.getProp "message" = some m) (hconv : m.toStr = some text) :
    (∀ r : FetchResult JsVal, (handleSubmit setUser s r).1.user = s.user) ∧
    (handleSubmit setUser s (.response status (some data))).1
      = { user := s.user
          form := { isRegistering := false
                    email := s.form.email
                    username := s.form.username
                    password := ""
                    isSubmitting := false
                    message := "Account created! Please log in." } } ∧
    (handleSubmit setUser s (.response status (some data))).2
      = [Effect.fetch "POST" "http://127.0.0.1:5000/api/register"] ∧
    (handleSubmit setUser s (.response status none)).1
      = { user := s.user
          form := { isRegistering := true
                    email := s.form.email
                    username := s.form.username
                    password := s.form.password
                    isSubmitting := false
                    message := "Network error. Is Backend running?" } } := by
  refine ⟨?_, ?_, ?_, ?_⟩
  · intro r
    cases r with
    | networkError => rfl
    | response st body =>
      cases body with
      | none => rfl
      | some d =>
        cases hd : d.getProp "message" with
        | none => simp [handleSubmit, handleSubmitStart, handleSubmitResponse, hd,
            handleSubmitCatch]
        | some msg =>
          cases hc : msg.toStr with
          | none => simp [handleSubmit, handleSubmitStart, handleSubmitResponse, hd, hc,
              handleSubmitCatch]
          | some t =>
            by_cases hst : responseOk st = true
            · simp [handleSubmit, handleSubmitStart, handleSubmitResponse, hd, hc, hst, hreg]
            · simp [handleSubmit, handleSubmitStart, handleSubmitResponse, hd, hc, hst]
  · simp [handleSubmit, handleSubmitStart, handleSubmitResponse, hm, hconv, hok, hreg]
  · simp [handleSubmit, handleSubmitStart, handleSubmitResponse, hm, hconv, hok, hreg, origin]
  · simp [handleSubmit, handleSubmitStart, handleSubmitResponse, handleSubmitCatch, hreg]

/-- Witness of C12 as amended: a registration answered with 201 by an
anonymous user. -/
theorem handleSubmit_register_keeps_user_witness :
    (handleSubmit true
        { user := JsVal.null
          form := { LoginState.init with
            isRegistering := true, email := "a@b.c", username := "ana", password := "pw" } }
        (.response 201 (some (.obj [("message", .str "created")])))).1
      = { user := JsVal.null
          form := { isRegistering := false
                    email := "a@b.c"
                    username := "ana"
                    password := ""
                    isSubmitting := false
                    message := "Account created! Please log in." } } :=
  (handleSubmit_register_keeps_user true
    { user := JsVal.null
      form := { LoginState.init with
        isRegistering := true, email := "a@b.c", username := "ana", password := "pw" } }
    201 (.obj [("message", .str "created")]) (.str "created") "created"
    rfl (by decide) rfl rfl).2.1

/-- Counterexample to C12 as stated: a registration answered with status 201
and a body that is not JSON does not switch the form to the login view:
`isRegistering` stays true and the password is not cleared. -/
theorem handleSubmit_register_unreadable_body :
    (handleSubmit true
        { user := JsVal.null
          form := { LoginState.init with
            isRegistering := true, email := "a@b.c", username := "ana", password := "pw" } }
        (.response 201 none)).1.form.isRegistering = true ∧
    (handleSubmit true
        { user := JsVal.null
          form := { LoginState.init with
            isRegistering := true, email := "a@b.c", username := "ana", password := "pw" } }
        (.response 201 none)).1.form.password = "pw" ∧
    (handleSubmit true
        { user := JsVal.null
          form := { LoginState.init with
            isRegistering := true, email := "a@b.c", username := "ana", password := "pw" } }
        (.response 201 none)).1.form.message = "Network error. Is Backend running?" := by
  refine ⟨rfl, rfl, rfl⟩

/-- C13: whatever the prior state, after a `fetchHistory` answered with a 2xx
status and a body that is the list `l`, the list of the store is exactly `l`,
so every item of it is an item of `l`; `loading` is false and the error cell
is not written (it keeps its prior value, `null` on the initial state). -/
theorem fetchHistory_success_replaces_list (s : HistoryState) (status : Nat)
    (l : List HistoryItem) (hok : responseOk status = true) :
    (fetchHistory s (.response status (some l))).1
      = { history := l, loading := false, error := s.error } ∧
    (∀ item ∈ (fetchHistory s (.response status (some l))).1.history, item ∈ l) ∧
    (fetchHistory HistoryState.init (.response status (some l))).1.error = none := by
  have hne : status ≠ 401 := by
    intro h
    rw [h] at hok
    revert hok
    decide
  have hres : (fetchHistory s (.response status (some l))).1
      = { history := l, loading := false, error := s.error } := by
    simp [fetchHistory, fetchHistoryResponse, hne, hok]
  have hinit : (fetchHistory HistoryState.init (.response status (some l))).1.error
      = none := by
    simp [fetchHistory, fetchHistoryResponse, hne, hok, HistoryState.init]
  refine ⟨hres, ?_, hinit⟩
  rw [hres]
  intro item hitem
  exact hitem

/-- Witness of C13: a stale entry of id 9 is dropped by a refresh that
returns the single item of id 1. -/
theorem fetchHistory_success_replaces_list_witness :
    (fetchHistory
        { history := [⟨.num 9, "u9", "old.png", "FAILED", "d9"⟩],
          loading := false, error := none }
        (.response 200 (some [⟨.num 1, "u1", "a.png", "COMPLETED", "d1"⟩]))).1
      = { history := [⟨.num 1, "u1", "a.png", "COMPLETED", "d1"⟩],
          loading := false, error := none } :=
  (fetchHistory_success_replaces_list
    { history := [⟨.num 9, "u9", "old.png", "FAILED", "d9"⟩],
      loading := false, error := none }
    200 [⟨.num 1, "u1", "a.png", "COMPLETED", "d1"⟩] (by decide)).1

/-! ## Theorems: rejected requests -/

/-- What `handleUpload` does, with a file selected, on a response outside
200..299 whose body is a JSON value with readable properties, `m` being its
`message`, when `m || "Server error occurred."` converts to `text`: it ends
with `isUploading = false`, `downloadId = null`, the file kept, and the
message "Upload Failed: " followed by `text`. -/
theorem handleUpload_failure_message (toUpperCase : String → String)
    (s : UploadState) (file : File) (status : Nat) (data m : JsVal) (text : String)
    (hfile : s.fileToUpload = some file) (hfail : responseOk status = false)
    (hm : data.getProp "message" = some m)
    (hconv : (m.orElse (JsVal.str "Server error occurred.")).toStr = some text) :
    (handleUpload toUpperCase s (.response status (some data))).1
      = { fileToUpload := some file
          previewURL := s.previewURL
          isUploading := false
          uploadMessage := "Upload Failed: " ++ text
          downloadId := JsVal.null } := by
  simp [handleUpload, handleUploadStart, handleUploadResponse, hfile, hfail, hm, hconv]

/-- C14, at the failing input: with a file selected, an upload answered with
status 500 and a body that is not JSON (`response.json()` rejects before
`response.ok` is tested) ends with the connectivity message of the `catch`
block, not with "Upload Failed: Server error occurred."; a 500 whose body is a
JSON object without message does get that generic text. -/
theorem handleUpload_500_unparsable_body :
    (handleUpload asciiUpper
        { UploadState.init with fileToUpload := some ⟨"cat.png", [137, 80]⟩ }
        (.response 500 none)).1.uploadMessage
      = "Network connection failed. Is the Flask server running?" ∧
    (handleUpload asciiUpper
        { UploadState.init with fileToUpload := some ⟨"cat.png", [137, 80]⟩ }
        (.response 500 none)).1.uploadMessage
      ≠ "Upload Failed: Server error occurred." ∧
    (handleUpload asciiUpper
        { UploadState.init with fileToUpload := some ⟨"cat.png", [137, 80]⟩ }
        (.response 500 none)).1.downloadId = JsVal.null ∧
    (handleUpload asciiUpper
        { UploadState.init with fileToUpload := some ⟨"cat.png", [137, 80]⟩ }
        (.response 500 (some (.obj [])))).1.uploadMessage
      = "Upload Failed: Server error occurred." := by
  refine ⟨by decide, by decide, rfl, by decide⟩

/-- C16: a submit answered with a status outside 200..299 and a body whose
`message` is the string `m` leaves `user` as it was, so an anonymous session
stays anonymous, and shows "Error: " followed by `m`, unaltered, as the
message of the form; the popup is not closed. -/
theorem handleSubmit_rejected_message (setUser : Bool) (s : Session) (status : Nat)
    (data : JsVal) (m : String)
    (hfail : responseOk status = false)
    (hm : data.getProp "message" = some (JsVal.str m)) :
    (handleSubmit setUser s (.response status (some data))).1.user = s.user ∧
    (handleSubmit setUser s (.response status (some data))).1.form.message
      = "Error: " ++ m ∧
    m.data <:+ (handleSubmit setUser s (.response status (some data))).1.form.message.data ∧
    (handleSubmit setUser s (.response status (some data))).1.form.isSubmitting = false ∧
    Effect.closeLater ∉ (handleSubmit setUser s (.response status (some data))).2 := by
  have hmsg : (handleSubmit setUser s (.response status (some data))).1.form.message
      = "Error: " ++ m := by
    simp [handleSubmit, handleSubmitStart, handleSubmitResponse, hfail, hm, JsVal.toStr]
  refine ⟨?_, hmsg, ?_, ?_, ?_⟩
  · simp [handleSubmit, handleSubmitStart, handleSubmitResponse, hfail, hm, JsVal.toStr]
  · rw [hmsg, String.data_append]
    exact List.suffix_append _ _
  · simp [handleSubmit, handleSubmitStart, handleSubmitResponse, hfail, hm, JsVal.toStr]
  · simp [handleSubmit, handleSubmitStart, handleSubmitResponse, hfail, hm, JsVal.toStr]

/-- Witness of C16: a login answered with 401 and "Invalid credentials". -/
theorem handleSubmit_rejected_message_witness :
    (handleSubmit true Session.init
        (.response 401 (some (.obj [("message", .str "Invalid credentials")])))).1.form.message
      = "Error: " ++ "Invalid credentials" :=
  (handleSubmit_rejected_message true Session.init 401
    (.obj [("message", .str "Invalid credentials")]) "Invalid credentials"
    (by decide) rfl).2.1

/-! ## Theorems: the session never goes back to anonymous -/

/-- The probe `checkAuth` keeps an authenticated session authenticated: it
writes `user` only with a body whose `authenticated` property is truthy, and
such a body is not `null`. -/
theorem checkAuth_keeps_authenticated (s : Session) (r : FetchResult JsVal)
    (h : s.authenticated = true) : (checkAuth s r).1.authenticated = true := by
  cases r with
  | networkError => simpa [checkAuth] using h
  | response status body =>
    cases body with
    | none => simpa [checkAuth] using h
    | some data =>
      cases data with
      | obj fields =>
        by_cases ht : ((fields.lookup "authenticated").getD JsVal.undefined).truthy = true
        · simp [checkAuth, JsVal.getProp, ht, Session.authenticated]
        · simpa [checkAuth, JsVal.getProp, ht] using h
      | _ => simpa [checkAuth, JsVal.getProp, JsVal.truthy] using h

/-- The handler `handleSubmit` keeps an authenticated session authenticated:
it leaves `user` alone or replaces it by an object. -/
theorem handleSubmit_keeps_authenticated (setUser : Bool) (s : Session)
    (r : FetchResult JsVal) (h : s.authenticated = true) :
    (handleSubmit setUser s r).1.authenticated = true := by
  have hstart : ∀ f : LoginState,
      Session.authenticated { user := s.user, form := f } = true := fun _ => h
  cases r with
  | networkError => exact hstart _
  | response status body =>
    cases body with
    | none => exact hstart _
    | some data =>
      cases hd : data.getProp "message" with
      | none =>
        simpa [handleSubmit, handleSubmitStart, handleSubmitResponse, hd, handleSubmitCatch,
          Session.authenticated] using h
      | some msg =>
        cases hc : msg.toStr with
        | none =>
          simpa [handleSubmit, handleSubmitStart, handleSubmitResponse, hd, hc,
            handleSubmitCatch, Session.authenticated] using h
        | some text =>
          by_cases hok : responseOk status = true
          · cases hreg : s.form.isRegistering
            · cases setUser
              · simpa [handleSubmit, handleSubmitStart, handleSubmitResponse, hd, hc, hok,
                  hreg, Session.authenticated] using h
              · simp [handleSubmit, handleSubmitStart, handleSubmitResponse, hd, hc, hok,
                  hreg, Session.authenticated]
            · simpa [handleSubmit, handleSubmitStart, handleSubmitResponse, hd, hc, hok,
                hreg, Session.authenticated] using h
          · simpa [handleSubmit, handleSubmitStart, handleSubmitResponse, hd, hc, hok,
              Session.authenticated] using h

/-- One operation of the session manager keeps an authenticated session
authenticated. -/
theorem SessionOp.run_keeps_authenticated (s : Session) (op : SessionOp)
    (h : s.authenticated = true) : (SessionOp.run s op).authenticated = true := by
  cases op with
  | probeAuth r => exact checkAuth_keeps_authenticated s r h
  | login r => exact handleSubmit_keeps_authenticated true _ r h
  | register r => exact handleSubmit_keeps_authenticated true _ r h

/-- C15: once `user` is not `null`, it is not `null` after any sequence of
probes, logins and registrations, whatever the outcome of each request
(success, rejection, unreadable body, transport failure). -/
theorem runOps_keeps_authenticated (s : Session) (ops : List SessionOp)
    (h : s.authenticated = true) : (runOps s ops).authenticated = true := by
  induction ops generalizing s with
  | nil => exact h
  | cons op rest ih =>
    show (runOps (SessionOp.run s op) rest).authenticated = true
    exact ih (SessionOp.run s op) (SessionOp.run_keeps_authenticated s op h)

/-- Witness of C15: after a login, a probe that reports `authenticated: false`,
a rejected login, a failed registration and a transport failure leave the
session authenticated. -/
theorem runOps_keeps_authenticated_witness :
    (runOps
        (SessionOp.run Session.init
          (.login (.response 200 (some (.obj [("message", .str "ok"),
                                              ("username", .str "ana")])))))
        [.probeAuth (.response 200 (some (.obj [("authenticated", .bool false)]))),
         .login (.response 401 (some (.obj [("message", .str "Invalid credentials")]))),
         .register (.response 500 none),
         .probeAuth .networkError]).authenticated = true :=
  runOps_keeps_authenticated _ _ (by decide)

/-! ## Theorems: a second submit while one is in flight -/

/-- The response handling of `handleSubmit` ends with `isSubmitting = false`
on every outcome: the `finally` block always runs. -/
theorem handleSubmitResponse_resets_flag (setUser registering : Bool) (s : Session)
    (r : FetchResult JsVal) :
    (handleSubmitResponse setUser registering s r).1.form.isSubmitting = false := by
  cases r with
  | networkError => rfl
  | response status body =>
    cases body with
    | none => rfl
    | some data =>
      cases hd : data.getProp "message" with
      | none => simp [handleSubmitResponse, hd, handleSubmitCatch]
      | some msg =>
        cases hc : msg.toStr with
        | none => simp [handleSubmitResponse, hd, hc, handleSubmitCatch]
        | some text =>
          by_cases hok : responseOk status = true
          · cases registering <;> simp [handleSubmitResponse, hd, hc, hok]
          · simp [handleSubmitResponse, hd, hc, hok]

/-- C17, as amended: while a submit is in flight the submit button is
rendered disabled, since the start of `handleSubmit` sets `isSubmitting` and
only the end of its response handling resets it, on every outcome.  The
handler `handleSubmit` itself does not read `isSubmitting`: every invocation,
on a state in flight as on any other, issues a POST request. -/
theorem handleSubmit_in_flight_gate (setUser : Bool) (s : Session)
    (r : FetchResult JsVal) :
    submitDisabled (handleSubmitStart s) = true ∧
    (∀ registering : Bool,
      submitDisabled (handleSubmitResponse setUser registering (handleSubmitStart s) r).1
        = false) ∧
    (∃ rest, (handleSubmit setUser s r).2
      = Effect.fetch "POST"
          (origin ++ (if s.form.isRegistering then "/api/register" else "/api/login"))
        :: rest) ∧
    (∃ rest, (handleSubmit setUser (handleSubmitStart s) r).2
      = Effect.fetch "POST"
          (origin ++ (if s.form.isRegistering then "/api/register" else "/api/login"))
        :: rest) :=
  ⟨rfl, fun registering => handleSubmitResponse_resets_flag setUser registering _ r,
   ⟨_, rfl⟩, ⟨_, rfl⟩⟩

/-- Counterexample to C17 as stated: on the state in flight after a first
login submit (`isSubmitting = true`), a second invocation of `handleSubmit`,
here one whose request fails, issues a POST to the login endpoint and changes
the state: the message is replaced and `isSubmitting` is reset. -/
theorem handleSubmit_second_invocation :
    (handleSubmitStart Session.init).form.isSubmitting = true ∧
    (handleSubmit true (handleSubmitStart Session.init) .networkError).2
      = [Effect.fetch "POST" "http://127.0.0.1:5000/api/login",
         Effect.consoleError "Auth Error:"] ∧
    (handleSubmit true (handleSubmitStart Session.init) .networkError).1.form.message
      = "Network error. Is Backend running?" ∧
    (handleSubmit true (handleSubmitStart Session.init) .networkError).1.form.isSubmitting
      = false := by
  refine ⟨rfl, by decide, rfl, rfl⟩

/-! ## Theorems: every outcome of an upload -/

/-- The response handling of `handleUpload` always ends with
`isUploading = false` and with one of the three messages of the handler. -/
theorem handleUploadResponse_defined (toUpperCase : String → String) (s : UploadState)
    (r : FetchResult JsVal) :
    (handleUploadResponse toUpperCase s r).1.isUploading = false ∧
    ((handleUploadResponse toUpperCase s r).1.uploadMessage = networkFailedMessage ∨
     (∃ st, (handleUploadResponse toUpperCase s r).1.uploadMessage
        = "Success! Image enhancement is " ++ toUpperCase st ++ ".") ∨
     (∃ m, (handleUploadResponse toUpperCase s r).1.uploadMessage
        = "Upload Failed: " ++ m)) := by
  cases r with
  | networkError => exact ⟨rfl, Or.inl rfl⟩
  | response status body =>
    cases body with
    | none => exact ⟨rfl, Or.inl rfl⟩
    | some data =>
      by_cases hok : responseOk status = true
      · cases hd : data.getProp "status" with
        | none =>
          simp [handleUploadResponse, hok, hd, handleUploadCatch]
        | some v =>
          cases v with
          | str st =>
            refine ⟨?_, Or.inr (Or.inl ⟨st, ?_⟩)⟩
            · by_cases h : st = "completed" <;> simp [handleUploadResponse, hok, hd, h]
            · by_cases h : st = "completed" <;> simp [handleUploadResponse, hok, hd, h]
          | _ => simp [handleUploadResponse, hok, hd, handleUploadCatch]
      · cases hd : data.getProp "message" with
        | none => simp [handleUploadResponse, hok, hd, handleUploadCatch]
        | some m =>
          cases hc : (m.orElse (JsVal.str "Server error occurred.")).toStr with
          | none => simp [handleUploadResponse, hok, hd, hc, handleUploadCatch]
          | some text =>
            refine ⟨?_, Or.inr (Or.inr ⟨text, ?_⟩)⟩
            · simp [handleUploadResponse, hok, hd, hc]
            · simp [handleUploadResponse, hok, hd, hc]

/-- C18: with a file selected, `handleUpload` returns a state for every
outcome of the request, one request having been issued; `isUploading` is
false in it and the message is one of the three messages of the handler.  On
a transport failure, on a body that is not JSON, and on a 2xx body without a
string status, the message is the connectivity message, `downloadId` is
`null` and the file is kept. -/
theorem handleUpload_every_outcome (toUpperCase : String → String) (s : UploadState)
    (file : File) (r : FetchResult JsVal) (hfile : s.fileToUpload = some file) :
    (handleUpload toUpperCase s r).1.isUploading = false ∧
    ((handleUpload toUpperCase s r).1.uploadMessage = networkFailedMessage ∨
     (∃ st, (handleUpload toUpperCase s r).1.uploadMessage
        = "Success! Image enhancement is " ++ toUpperCase st ++ ".") ∨
     (∃ m, (handleUpload toUpperCase s r).1.uploadMessage = "Upload Failed: " ++ m)) ∧
    (∃ rest, (handleUpload toUpperCase s r).2
        = Effect.fetch "POST" "http://127.0.0.1:5000/api/upload" :: rest) ∧
    (handleUpload toUpperCase s .networkError).1
      = { fileToUpload := some file
          previewURL := s.previewURL
          isUploading := false
          uploadMessage := "Network connection failed. Is the Flask server running?"
          downloadId := JsVal.null } ∧
    (∀ status : Nat, (handleUpload toUpperCase s (.response status none)).1
      = { fileToUpload := some file
          previewURL := s.previewURL
          isUploading := false
          uploadMessage := "Network connection failed. Is the Flask server running?"
          downloadId := JsVal.null }) ∧
    (∀ (status : Nat) (data : JsVal), responseOk status = true →
      (∀ st : String, data.getProp "status" ≠ some (JsVal.str st)) →
      (handleUpload toUpperCase s (.response status (some data))).1
        = { fileToUpload := some file
            previewURL := s.previewURL
            isUploading := false
            uploadMessage := "Network connection failed. Is the Flask server running?"
            downloadId := JsVal.null }) := by
  have hrun : ∀ r' : FetchResult JsVal, handleUpload toUpperCase s r'
      = ((handleUploadResponse toUpperCase (handleUploadStart s) r').1,
         Effect.fetch "POST" (origin ++ "/api/upload")
           :: (handleUploadResponse toUpperCase (handleUploadStart s) r').2) := by
    intro r'
    simp [handleUpload, hfile]
  have hdef := handleUploadResponse_defined toUpperCase (handleUploadStart s) r
  refine ⟨?_, ?_, ?_, ?_, ?_, ?_⟩
  · rw [hrun]
    exact hdef.1
  · rw [hrun]
    exact hdef.2
  · rw [hrun]
    exact ⟨(handleUploadResponse toUpperCase (handleUploadStart s) r).2, by simp [origin]⟩
  · rw [hrun]
    simp [handleUploadResponse, handleUploadCatch, handleUploadStart, hfile,
      networkFailedMessage]
  · intro status
    rw [hrun]
    simp [handleUploadResponse, handleUploadCatch, handleUploadStart, hfile,
      networkFailedMessage]
  · intro status data hok hnostr
    rw [hrun]
    cases hd : data.getProp "status" with
    | none =>
      simp [handleUploadResponse, hok, hd, handleUploadCatch, handleUploadStart, hfile,
        networkFailedMessage]
    | some v =>
      cases v with
      | str st => exact absurd hd (hnostr st)
      | _ =>
        simp [handleUploadResponse, hok, hd, handleUploadCatch, handleUploadStart, hfile,
          networkFailedMessage]

/-- Witness of C18: a 200 answer whose body has no status at all. -/
theorem handleUpload_every_outcome_witness :
    (handleUpload asciiUpper
        { UploadState.init with fileToUpload := some ⟨"cat.png", [137, 80]⟩ }
        (.response 200 (some (.obj [("filename", .str "abc123")])))).1.isUploading
      = false :=
  (handleUpload_every_outcome asciiUpper
    { UploadState.init with fileToUpload := some ⟨"cat.png", [137, 80]⟩ }
    ⟨"cat.png", [137, 80]⟩
    (.response 200 (some (.obj [("filename", .str "abc123")]))) rfl).1

/-- C19: with a file selected, a 2xx upload response with a string status,
whatever it is, clears the selected file and leaves the preview as it was, so
that a submit right after it takes the no-file branch: no request, only the
prompt message.  After a failed request (a status outside 200..299 or a
transport failure) the selected file is kept. -/
theorem handleUpload_success_clears_file (toUpperCase : String → String)
    (s : UploadState) (file : File) (status : Nat) (data : JsVal) (st : String)
    (hfile : s.fileToUpload = some file) (hok : responseOk status = true)
    (hstatus : data.getProp "status" = some (JsVal.str st)) :
    (handleUpload toUpperCase s (.response status (some data))).1.fileToUpload = none ∧
    (handleUpload toUpperCase s (.response status (some data))).1.previewURL
      = s.previewURL ∧
    (∀ r2 : FetchResult JsVal,
      (handleUpload toUpperCase
          (handleUpload toUpperCase s (.response status (some data))).1 r2).2 = [] ∧
      (handleUpload toUpperCase
          (handleUpload toUpperCase s (.response status (some data))).1 r2).1.uploadMessage
        = "Please select an image first.") ∧
    (∀ r : FetchResult JsVal, r.failed = true →
      (handleUpload toUpperCase s r).1.fileToUpload = some file) := by
  have hcleared :
      (handleUpload toUpperCase s (.response status (some data))).1.fileToUpload = none := by
    by_cases h : st = "completed" <;>
      simp [handleUpload, handleUploadStart, handleUploadResponse, hfile, hok, hstatus, h]
  refine ⟨hcleared, ?_, ?_, ?_⟩
  · by_cases h : st = "completed" <;>
      simp [handleUpload, handleUploadStart, handleUploadResponse, hfile, hok, hstatus, h]
  · intro r2
    generalize (handleUpload toUpperCase s (.response status (some data))).1 = t
      at hcleared ⊢
    simp [handleUpload, hcleared]
  · intro r hfailed
    cases r with
    | networkError =>
      simp [handleUpload, handleUploadStart, handleUploadResponse, handleUploadCatch, hfile]
    | response st2 body =>
      have hno : responseOk st2 = false := by
        simpa [FetchResult.failed] using hfailed
      cases body with
      | none =>
        simp [handleUpload, handleUploadStart, handleUploadResponse, handleUploadCatch, hfile]
      | some d =>
        cases hd : d.getProp "message" with
        | none =>
          simp [handleUpload, handleUploadStart, handleUploadResponse, handleUploadCatch,
            hfile, hno, hd]
        | some m =>
          cases hc : (m.orElse (JsVal.str "Server error occurred.")).toStr <;>
            simp [handleUpload, handleUploadStart, handleUploadResponse, handleUploadCatch,
              hfile, hno, hd, hc]

/-- Witness of C19: the status "processing" clears the file as well. -/
theorem handleUpload_success_clears_file_witness :
    (handleUpload asciiUpper
        { UploadState.init with fileToUpload := some ⟨"cat.png", [137, 80]⟩ }
        (.response 200 (some (.obj [("status", .str "processing")])))).1.fileToUpload
      = none :=
  (handleUpload_success_clears_file asciiUpper
    { UploadState.init with fileToUpload := some ⟨"cat.png", [137, 80]⟩ }
    ⟨"cat.png", [137, 80]⟩ 200 (.obj [("status", .str "processing")]) "processing"
    rfl (by decide) rfl).1

end Upscale
